import Mathlib

/-!
Verification development for the position-aggregation dApp frontend
(source file `src/unnamed/part_000`, a React component over ethers.js).

The embedding translates the pure computations and the transaction-handler
control flow of the source into Lean. JavaScript `bigint` values are exact
integers, embedded as `Int`; JS `bigint` division truncates toward zero,
embedded as `Int.tdiv`. JS `string | null` values are embedded as
`Option String`, with JS truthiness of a string being "non-empty".
-/

/-! ### AMM pricing engine -/

/-- Embeds `calculateBurnValue` (part_000 lines 601-612).

JS source:
```
if (amountIn <= 0n || tokenReserve <= 0n || bnbReserve <= 0n) return 0n;
const amountInWithFee = amountIn * 997n;
const numerator = amountInWithFee * bnbReserve;
const denominator = tokenReserve * 1000n + amountInWithFee;
return numerator / denominator;
```
The surrounding `try/catch` (returning `0n`) can only fire on a
division-by-zero `RangeError`; the guard makes the denominator positive, so
the catch is dead code. `Int.tdiv x 0 = 0` matches the catch result anyway. -/
def calculateBurnValue (amountIn tokenReserve bnbReserve : Int) : Int :=
  if amountIn ≤ 0 ∨ tokenReserve ≤ 0 ∨ bnbReserve ≤ 0 then 0
  else
    let amountInWithFee := amountIn * 997
    let numerator := amountInWithFee * bnbReserve
    let denominator := tokenReserve * 1000 + amountInWithFee
    numerator.tdiv denominator

/-- Embeds `calculateMinTokenAmount` (part_000 lines 615-627).

JS source:
```
if (minValue <= 0n || tokenReserve <= 0n || bnbReserve <= 0n) return 0n;
const numerator = tokenReserve * minValue * 1000n;
const denominator = (bnbReserve - minValue) * 997n;
const minAmount = numerator / denominator;
return minAmount * 101n / 100n;
```
again wrapped in `try/catch { return 0n }`. The only possible throw is the
division-by-zero `RangeError` when `bnbReserve = minValue`; in that case the
JS code returns `0n`, and `Int.tdiv _ 0 = 0` makes this embedding return `0`
as well, so the catch needs no separate branch. Note that for
`minValue > bnbReserve` the JS code does NOT throw: the denominator is
negative and the truncating division yields a non-positive quotient. -/
def calculateMinTokenAmount (minValue tokenReserve bnbReserve : Int) : Int :=
  if minValue ≤ 0 ∨ tokenReserve ≤ 0 ∨ bnbReserve ≤ 0 then 0
  else
    let numerator := tokenReserve * minValue * 1000
    let denominator := (bnbReserve - minValue) * 997
    let minAmount := numerator.tdiv denominator
    (minAmount * 101).tdiv 100

/-! ### Position data model and reconciliation -/

/-- Embeds the `lossSnapshot` state shape (part_000 lines 250-252):
`{ costBasis: bigint; soldValue: bigint; dividendReceived: bigint }`. -/
structure LossSnapshot where
  costBasis : Int
  soldValue : Int
  dividendReceived : Int
deriving DecidableEq

/-- Embeds the `cachedLoss` state shape (part_000 line 253):
`{ loss: bigint; valid: boolean }`. -/
structure CachedLoss where
  loss : Int
  valid : Bool
deriving DecidableEq

/-- Embeds the nested `thresholds` field of the `OffchainStatus` type
(part_000 lines 264-267). -/
structure OffchainThresholds where
  minHoldingValue : Option String
  minLossValue : Option String
deriving DecidableEq

/-- Embeds the `OffchainStatus` type (part_000 lines 258-268); every field is
optional, serialized as a decimal string. -/
structure OffchainStatus where
  costBasis : Option String
  soldValue : Option String
  currentHoldingValue : Option String
  lossAmount : Option String
  canClaim : Option Bool
  thresholds : Option OffchainThresholds
deriving DecidableEq

/-- Models the ECMAScript `BigInt(string)` coercion on the decimal fragment of
its grammar: leading/trailing whitespace is trimmed, the empty (post-trim)
string coerces to `0`, an optional single sign is followed by decimal digits,
and anything else throws (`none`). (The hexadecimal/octal/binary literal forms
of `StringToBigInt` are treated as failures here; the off-chain service
serializes wei amounts as decimal strings, which is the fragment the code
relies on.) -/
def decDigitsVal (cs : List Char) : Option Nat :=
  if cs = [] then none
  else if cs.all Char.isDigit then
    some (cs.foldl (fun acc c => acc * 10 + (c.toNat - '0'.toNat)) 0)
  else none

/-- Whitespace trimming on the character list of a string (the JS coercion
trims leading and trailing whitespace before parsing). -/
def jsTrim (s : String) : List Char :=
  ((s.data.dropWhile Char.isWhitespace).reverse.dropWhile Char.isWhitespace).reverse

/-- String-to-integer coercion used by `parseWeiString`; see `decDigitsVal`. -/
def jsStringToBigInt (s : String) : Option Int :=
  match jsTrim s with
  | [] => some 0
  | '-' :: rest => (decDigitsVal rest).map (fun n => -(n : Int))
  | '+' :: rest => (decDigitsVal rest).map (fun n => (n : Int))
  | cs => (decDigitsVal cs).map (fun n => (n : Int))

/-- Embeds `parseWeiString` (part_000 lines 272-279):
```
if (!value) return 0n;
try { return BigInt(value); } catch { return 0n; }
```
`!value` is true for `undefined` (`none`) and for the empty string. -/
def parseWeiString (value : Option String) : Int :=
  match value with
  | none => 0
  | some s => if s = "" then 0 else (jsStringToBigInt s).getD 0

/-- Embeds `offchainCostBasis` (part_000 line 561):
`offchainStatus ? parseWeiString(offchainStatus.costBasis) : 0n`. -/
def offchainCostBasis (offchainStatus : Option OffchainStatus) : Int :=
  match offchainStatus with
  | some o => parseWeiString o.costBasis
  | none => 0

/-- Embeds `offchainSoldValue` (part_000 line 562). -/
def offchainSoldValue (offchainStatus : Option OffchainStatus) : Int :=
  match offchainStatus with
  | some o => parseWeiString o.soldValue
  | none => 0

/-- Embeds `offchainHoldingValue` (part_000 line 563). -/
def offchainHoldingValue (offchainStatus : Option OffchainStatus) : Int :=
  match offchainStatus with
  | some o => parseWeiString o.currentHoldingValue
  | none => 0

/-- Embeds `offchainLossAmount` (part_000 line 564). -/
def offchainLossAmount (offchainStatus : Option OffchainStatus) : Int :=
  match offchainStatus with
  | some o => parseWeiString o.lossAmount
  | none => 0

/-- Embeds `effectiveCostBasis` (part_000 line 566):
`offchainStatus ? offchainCostBasis : lossSnapshot.costBasis`. -/
def effectiveCostBasis (offchainStatus : Option OffchainStatus)
    (lossSnapshot : LossSnapshot) : Int :=
  match offchainStatus with
  | some _ => offchainCostBasis offchainStatus
  | none => lossSnapshot.costBasis

/-- Embeds `effectiveSoldValue` (part_000 line 567). -/
def effectiveSoldValue (offchainStatus : Option OffchainStatus)
    (lossSnapshot : LossSnapshot) : Int :=
  match offchainStatus with
  | some _ => offchainSoldValue offchainStatus
  | none => lossSnapshot.soldValue

/-- Embeds `effectiveHoldingValue` (part_000 line 568):
`offchainStatus ? offchainHoldingValue : holdingValue`. -/
def effectiveHoldingValue (offchainStatus : Option OffchainStatus)
    (holdingValue : Int) : Int :=
  match offchainStatus with
  | some _ => offchainHoldingValue offchainStatus
  | none => holdingValue

/-- Embeds `effectiveLossAmount` (part_000 line 569):
`offchainStatus ? offchainLossAmount : (cachedLoss.valid ? cachedLoss.loss : 0n)`. -/
def effectiveLossAmount (offchainStatus : Option OffchainStatus)
    (cachedLoss : CachedLoss) : Int :=
  match offchainStatus with
  | some _ => offchainLossAmount offchainStatus
  | none => if cachedLoss.valid then cachedLoss.loss else 0

/-- Embeds `fetchOffchainStatus` (part_000 lines 282-302). The live body is a
single `setOffchainStatus(null)`; the network fetch of `GET /user-status` is
commented out ("API 接口已关闭"). The function therefore maps any previous
snapshot state to `none`. The initial state (line 270) is also `null`. -/
def fetchOffchainStatusResult (_prev : Option OffchainStatus) :
    Option OffchainStatus :=
  none

/-! ### Referral resolution -/

/-- The `ethers.ZeroAddress` constant. -/
def zeroAddress : String := "0x0000000000000000000000000000000000000000"

/-- Hexadecimal digit test used by the address model. -/
def isHexDigitChar (c : Char) : Bool :=
  c.isDigit || ('a' ≤ c && c ≤ 'f') || ('A' ≤ c && c ≤ 'F')

/-- Models the external dependency `ethers.isAddress`: the string must be
`0x` followed by exactly 40 hexadecimal digits. (The real library in addition
rejects mixed-case strings with a bad EIP-55 checksum; on non-mixed-case
inputs — including every string used in the theorems below — the two agree,
so the keccak-based checksum branch is not modelled.) -/
def ethersIsAddress (s : String) : Bool :=
  match s.data with
  | '0' :: 'x' :: rest => rest.length == 40 && rest.all isHexDigitChar
  | _ => false

/-- Models the JS test `s.startsWith('0x')` on the character list. -/
def jsStartsWith0x (s : String) : Bool :=
  match s.data with
  | '0' :: 'x' :: _ => true
  | _ => false

/-- Truthiness-plus-zero-address test used repeatedly by the source in the
form `x && x !== ethers.ZeroAddress`, where `x` is a nullable string state
(JS string truthiness: non-null and non-empty). -/
def jsTruthyNonZeroAddr (v : Option String) : Bool :=
  match v with
  | none => false
  | some s => s != "" && s != zeroAddress

/-- Embeds `inviterFromUrl` (part_000 lines 236-243):
```
const inviter = params.get('ref');
if (inviter && ethers.isAddress(inviter)) return inviter;
return '';
```
`params.get` yields `null` (`none`) when the parameter is absent. -/
def inviterFromUrl (refParam : Option String) : String :=
  match refParam with
  | none => ""
  | some inviter => if inviter != "" && ethersIsAddress inviter then inviter else ""

/-- Embeds the URL-parameter effect that seeds the burn flow's `inviter` text
state (part_000 lines 579-583):
```
const ref = params.get('ref');
if (ref && ref.startsWith('0x')) setInviter(ref);
```
`inviter` is the previous value of that state (initially `''`); it is only
overwritten when the ref is present and merely starts with `0x`. -/
def urlRefEffectInviter (refParam : Option String) (inviter : String) : String :=
  match refParam with
  | none => inviter
  | some r => if r != "" && jsStartsWith0x r then r else inviter

/-- Embeds the inviter resolution of `handleBurn` (part_000 lines 684-690):
```
const inviterAddr = inviter && inviter.startsWith('0x')
  ? inviter
  : (inviterOnchain && inviterOnchain !== ethers.ZeroAddress)
    ? inviterOnchain
    : (rootInviter && rootInviter !== ethers.ZeroAddress)
      ? rootInviter
      : ethers.ZeroAddress;
```
`inviter` is the URL-seeded text state (there is no manual-entry field in the
burn UI); `inviterOnchain` and `rootInviter` are nullable states read from the
burn-token contract. -/
def burnInviterAddr (inviter : String) (inviterOnchain rootInviter : Option String) :
    String :=
  if inviter != "" && jsStartsWith0x inviter then inviter
  else if jsTruthyNonZeroAddr inviterOnchain then inviterOnchain.getD ""
  else if jsTruthyNonZeroAddr rootInviter then rootInviter.getD ""
  else zeroAddress

/-- Embeds the inviter resolution of `handleSubscribe` (part_000 lines
887-907):
```
let inviterAddress = ethers.ZeroAddress;
if (nftInviterOnchain && nftInviterOnchain !== ethers.ZeroAddress) {
  inviterAddress = nftInviterOnchain;
} else {
  if (nftSubInviter && ethers.isAddress(nftSubInviter)) { inviterAddress = nftSubInviter; }
  else if (inviterFromUrl) { inviterAddress = inviterFromUrl; }
  else if (nftSubRootInviter && ethers.isAddress(nftSubRootInviter)) { inviterAddress = nftSubRootInviter; }
}
```
`inviterFromUrlVal` is the (pre-validated) value of `inviterFromUrl`. -/
def subscribeInviterAddr (nftInviterOnchain : Option String) (nftSubInviter : String)
    (inviterFromUrlVal : String) (nftSubRootInviter : String) : String :=
  if jsTruthyNonZeroAddr nftInviterOnchain then nftInviterOnchain.getD ""
  else if nftSubInviter != "" && ethersIsAddress nftSubInviter then nftSubInviter
  else if inviterFromUrlVal != "" then inviterFromUrlVal
  else if nftSubRootInviter != "" && ethersIsAddress nftSubRootInviter then
    nftSubRootInviter
  else zeroAddress

/-! ### Transaction orchestrator -/

/-- Outcome of the control decision at the head of `handleBurn`. -/
inductive BurnEntryStep where
  | abortNoSigner
  | redirectToApprove
  | submitBurn
deriving DecidableEq

/-- Embeds the entry of `handleBurn` (part_000 lines 661-679): after the
signer guard, a fresh on-chain `allowance` read is performed; if it is below
`parsedBurnAmount` the flow redirects into `handleApprove`, otherwise it falls
through to submit the burn. `cachedAllowance` is the polled `allowance` state,
which this code never reads — the decision depends only on the fresh value.
`freshAllowance = none` models the allowance read throwing (the `catch` logs
and falls through to submission); `tokenAddress = none` skips the check. -/
def handleBurnEntry (signerPresent : Bool) (tokenAddress : Option String)
    (cachedAllowance : Int) (freshAllowance : Option Int)
    (parsedBurnAmount : Int) : BurnEntryStep :=
  if !signerPresent then .abortNoSigner
  else
    match tokenAddress, freshAllowance with
    | some _, some a =>
        if a < parsedBurnAmount then .redirectToApprove else .submitBurn
    | _, _ => .submitBurn

/-- The transaction-machine state owned by the handlers: the `isPending` flag
(part_000 line 313) and the `lastAction` marker (line 314). -/
structure TxState where
  isPending : Bool
  lastAction : Option String
deriving DecidableEq

/-- The idle phase: not pending, no active action. -/
def idleState : TxState := { isPending := false, lastAction := none }

/-- Embeds the five structurally-identical claim handlers
(`handleClaimBurnBNB`, `handleClaimBurnToken`, `handleClaimLossDiv`,
`handleClaimNftDiv`, `handleClaimNFT`; part_000 lines 730-813), which differ
only in the `action` label and the contract call. Shape:
```
if (!signer) return;
setIsPending(true); setLastAction(action);
try { submit; await wait; refresh; } catch { log; }
finally { setIsPending(false); setLastAction(null); }
```
The try/catch body never touches the transaction state, so `txOk` does not
influence the result. -/
def claimHandlerRun (action : String) (signerPresent : Bool) (s : TxState)
    (txOk : Bool) : TxState :=
  if !signerPresent then s
  else
    let s1 := { s with isPending := true }
    let s2 := { s1 with lastAction := some action }
    let s3 := { s2 with isPending := false }
    { s3 with lastAction := none }

/-- Embeds the submission part of `handleBurn` (part_000 lines 681-728),
entered after the allowance re-check passed:
```
setIsPending(true); setLastAction('burn');
try { burn; wait; clear input; refresh; } catch { classify and alert; }
finally { setIsPending(false); setLastAction(null); }
```
-/
def handleBurnSubmitRun (s : TxState) (txOk : Bool) : TxState :=
  let s1 := { s with isPending := true }
  let s2 := { s1 with lastAction := some "burn" }
  let s3 := { s2 with isPending := false }
  { s3 with lastAction := none }

/-- Embeds `handleApprove` (part_000 lines 643-659):
```
if (!signer || !tokenAddress) return;
setIsPending(true); setLastAction('approve');
try { approve(MaxUint256); wait; refresh; await handleBurn(); }
catch { setIsPending(false); setLastAction(null); }
```
On success control continues into `handleBurn`; since the approval just
granted an unlimited allowance, the fresh re-check there passes and the burn
submission path (`handleBurnSubmitRun`) runs. -/
def handleApproveRun (signerPresent tokenKnown : Bool) (s : TxState)
    (approveOk burnOk : Bool) : TxState :=
  if !signerPresent || !tokenKnown then s
  else
    let s1 := { s with isPending := true }
    let s2 := { s1 with lastAction := some "approve" }
    if approveOk then handleBurnSubmitRun s2 burnOk
    else
      let s3 := { s2 with isPending := false }
      { s3 with lastAction := none }

/-- Embeds the transaction section of `handleSubscribe` (part_000 lines
879-930), entered after the connection / network / signer / balance guards:
```
setIsPending(true); setLastAction('subscribe');
try { subscribe; wait; alert; refresh counters; } catch { log; }
finally { setIsPending(false); }
```
Note that — unlike every other handler — the `finally` block clears only the
pending flag and does not reset `lastAction`. -/
def handleSubscribeRun (preGuardsPass : Bool) (s : TxState) (txOk : Bool) :
    TxState :=
  if !preGuardsPass then s
  else
    let s1 := { s with isPending := true }
    let s2 := { s1 with lastAction := some "subscribe" }
    { s2 with isPending := false }

/-! ### Helper lemmas -/

/-- Evaluation of `calculateBurnValue` past its guard. -/
theorem calculateBurnValue_of_pos {a r s : Int} (ha : 0 < a) (hr : 0 < r)
    (hs : 0 < s) :
    calculateBurnValue a r s = (a * 997 * s).tdiv (r * 1000 + a * 997) := by
  unfold calculateBurnValue
  rw [if_neg (by push_neg; exact ⟨ha, hr, hs⟩)]

/-- Evaluation of `calculateMinTokenAmount` past its guard. -/
theorem calculateMinTokenAmount_of_pos {v r s : Int} (hv : 0 < v) (hr : 0 < r)
    (hs : 0 < s) :
    calculateMinTokenAmount v r s
      = ((r * v * 1000).tdiv ((s - v) * 997) * 101).tdiv 100 := by
  unfold calculateMinTokenAmount
  rw [if_neg (by push_neg; exact ⟨hv, hr, hs⟩)]

/-- The forward quote never returns a negative amount. -/
theorem calculateBurnValue_nonneg (a r s : Int) : 0 ≤ calculateBurnValue a r s := by
  unfold calculateBurnValue
  split
  · exact le_refl 0
  · rename_i h
    push_neg at h
    obtain ⟨ha, hr, hs⟩ := h
    show 0 ≤ (a * 997 * s).tdiv (r * 1000 + a * 997)
    rw [Int.tdiv_eq_ediv (show (0:Int) ≤ a * 997 * s by nlinarith [mul_pos ha hs])
          (show (0:Int) ≤ r * 1000 + a * 997 by nlinarith)]
    exact Int.ediv_nonneg (by nlinarith [mul_pos ha hs]) (by nlinarith)

/-- Euclidean division of integers is the rational floor, for a positive
denominator. -/
theorem floor_intCast_div_of_pos {n d : Int} (hd : 0 < d) :
    ⌊(n : ℚ) / (d : ℚ)⌋ = n / d := by
  lift d to ℕ using hd.le
  exact_mod_cast Rat.floor_intCast_div_natCast n d

/-! ### Claim theorems -/

/-- Claim C2 (code bug): the inverse minimum-input function is claimed to
return exactly `0` whenever `reserveOut - minValueOut ≤ 0`, but for
`minValueOut > reserveOut` the denominator is negative, no exception is
thrown, and the truncating division produces a negative amount: at
`minValueOut = 2`, `reserveIn = reserveOut = 1` the result is `-2`, not `0`.
The remaining guards of the claim do hold: `minValueOut ≤ 0` or a
non-positive reserve returns `0`, and `minValueOut = reserveOut` returns `0`
through the caught division-by-zero. -/
theorem claim2_negative_min_amount :
    calculateMinTokenAmount 2 1 1 = -2 ∧
    calculateMinTokenAmount 2 1 1 < 0 ∧
    calculateMinTokenAmount 1 1 1 = 0 ∧
    calculateMinTokenAmount 0 1 1 = 0 ∧
    calculateMinTokenAmount 5 0 1 = 0 ∧
    calculateMinTokenAmount 5 1 0 = 0 := by decide

/-- Claim C4: for positive `amountIn` and reserves, the forward quote equals
the exact rational floor
`⌊amountIn*997*reserveOut / (reserveIn*1000 + amountIn*997)⌋` (computed in
unbounded integer arithmetic), and whenever `amountIn ≤ 0` or either reserve
is non-positive it returns `0` without reaching the division. -/
theorem claim4_forward_quote_exact (amountIn reserveIn reserveOut : Int) :
    (0 < amountIn → 0 < reserveIn → 0 < reserveOut →
      calculateBurnValue amountIn reserveIn reserveOut =
        ⌊((amountIn * 997 * reserveOut : Int) : ℚ) /
          ((reserveIn * 1000 + amountIn * 997 : Int) : ℚ)⌋) ∧
    (amountIn ≤ 0 ∨ reserveIn ≤ 0 ∨ reserveOut ≤ 0 →
      calculateBurnValue amountIn reserveIn reserveOut = 0) := by
  constructor
  · intro ha hr hs
    have hden : 0 < reserveIn * 1000 + amountIn * 997 := by nlinarith
    rw [calculateBurnValue_of_pos ha hr hs,
      Int.tdiv_eq_ediv
        (show (0:Int) ≤ amountIn * 997 * reserveOut by nlinarith [mul_pos ha hs])
        hden.le,
      floor_intCast_div_of_pos hden]
  · intro h
    unfold calculateBurnValue
    rw [if_pos h]

/-- Witness for C4 at `amountIn = 3`, `reserveIn = 5`, `reserveOut = 7` and at
the degenerate input `amountIn = -1`. -/
theorem claim4_witness :
    calculateBurnValue 3 5 7 =
      ⌊((3 * 997 * 7 : Int) : ℚ) / ((5 * 1000 + 3 * 997 : Int) : ℚ)⌋ ∧
    calculateBurnValue (-1) 5 7 = 0 :=
  ⟨(claim4_forward_quote_exact 3 5 7).1 (by norm_num) (by norm_num) (by norm_num),
   (claim4_forward_quote_exact (-1) 5 7).2 (Or.inl (by norm_num))⟩

/-- Claim C8: for fixed positive reserves the forward quote is non-decreasing
in `amountIn` on `0 ≤ a1 ≤ a2`, and zero input yields zero output. -/
theorem claim8_monotone_zero :
    (∀ (reserveIn reserveOut a1 a2 : Int), 0 < reserveIn → 0 < reserveOut →
      0 ≤ a1 → a1 ≤ a2 →
      calculateBurnValue a1 reserveIn reserveOut ≤
        calculateBurnValue a2 reserveIn reserveOut) ∧
    (∀ reserveIn reserveOut : Int, calculateBurnValue 0 reserveIn reserveOut = 0) := by
  constructor
  · intro r s a1 a2 hr hs h1 h12
    rcases eq_or_lt_of_le h1 with h0 | ha1
    · have hz : calculateBurnValue 0 r s = 0 := by
        unfold calculateBurnValue
        rw [if_pos (Or.inl le_rfl)]
      rw [← h0, hz]
      exact calculateBurnValue_nonneg a2 r s
    · have ha2 : 0 < a2 := lt_of_lt_of_le ha1 h12
      have hD1 : 0 < r * 1000 + a1 * 997 := by nlinarith
      have hD2 : 0 < r * 1000 + a2 * 997 := by nlinarith
      rw [calculateBurnValue_of_pos ha1 hr hs, calculateBurnValue_of_pos ha2 hr hs,
        Int.tdiv_eq_ediv (show (0:Int) ≤ a1 * 997 * s by nlinarith [mul_pos ha1 hs])
          hD1.le,
        Int.tdiv_eq_ediv (show (0:Int) ≤ a2 * 997 * s by nlinarith [mul_pos ha2 hs])
          hD2.le,
        Int.le_ediv_iff_mul_le hD2]
      have h3 : a1 * 997 * s / (r * 1000 + a1 * 997) * (r * 1000 + a1 * 997)
          ≤ a1 * 997 * s := Int.ediv_mul_le _ hD1.ne'
      have key : (a1 * 997 * s) * (r * 1000 + a2 * 997)
          ≤ (a2 * 997 * s) * (r * 1000 + a1 * 997) := by
        nlinarith [mul_nonneg (mul_nonneg hs.le hr.le) (sub_nonneg.mpr h12)]
      have h4 : (a1 * 997 * s / (r * 1000 + a1 * 997) * (r * 1000 + a2 * 997))
            * (r * 1000 + a1 * 997)
          ≤ (a2 * 997 * s) * (r * 1000 + a1 * 997) := by
        nlinarith [mul_le_mul_of_nonneg_right h3 hD2.le]
      exact le_of_mul_le_mul_right h4 hD1
  · intro r s
    unfold calculateBurnValue
    rw [if_pos (Or.inl le_rfl)]

/-- Witness for C8 at reserves `(5, 7)` and amounts `2 ≤ 3`. -/
theorem claim8_witness :
    calculateBurnValue 2 5 7 ≤ calculateBurnValue 3 5 7 :=
  claim8_monotone_zero.1 5 7 2 3 (by norm_num) (by norm_num) (by norm_num)
    (by norm_num)

/-- Claim C3 counterexample: with `reserveIn = 1`, `reserveOut = 2`,
`minValueOut = 1` (positive reserves, `0 < minValueOut < reserveOut`), the
inverse returns `1` token — the 1% margin `*101/100` truncates away — and the
forward quote of that amount is `0 < 1`: the round-trip under-shoots. -/
theorem claim3_counterexample :
    (0 : Int) < 1 ∧ (0 : Int) < 2 ∧ (1 : Int) < 2 ∧
    calculateMinTokenAmount 1 1 2 = 1 ∧
    calculateBurnValue (calculateMinTokenAmount 1 1 2) 1 2 = 0 ∧
    calculateBurnValue (calculateMinTokenAmount 1 1 2) 1 2 < 1 := by decide

/-- Claim C3 (amended): the round-trip bound
`minValueOut ≤ amountOut(minAmountIn(minValueOut))` holds for positive
reserves and `0 < minValueOut < reserveOut` whenever in addition the
pre-margin inverse is at least `100` — stated divisionlessly as
`100 * ((reserveOut - minValueOut) * 997) ≤ reserveIn * minValueOut * 1000` —
so that the fixed 1% margin contributes at least one whole token unit. (The
counterexample shows the extra bound is needed: when the pre-margin inverse
is below `100` the margin can truncate to nothing and the floor of the
inverse may under-shoot.) -/
theorem claim3_amended_roundtrip (reserveIn reserveOut minValue : Int)
    (hr : 0 < reserveIn) (hv : 0 < minValue) (hvs : minValue < reserveOut)
    (hbig : 100 * ((reserveOut - minValue) * 997) ≤ reserveIn * minValue * 1000) :
    minValue ≤
      calculateBurnValue (calculateMinTokenAmount minValue reserveIn reserveOut)
        reserveIn reserveOut := by
  have hs : 0 < reserveOut := hv.trans hvs
  have hDpos : 0 < (reserveOut - minValue) * 997 := by nlinarith
  have hNnn : 0 ≤ reserveIn * minValue * 1000 := by nlinarith
  have hinner : (reserveIn * minValue * 1000).tdiv ((reserveOut - minValue) * 997)
      = reserveIn * minValue * 1000 / ((reserveOut - minValue) * 997) :=
    Int.tdiv_eq_ediv hNnn hDpos.le
  obtain ⟨m0, hm0⟩ :
      ∃ m0, reserveIn * minValue * 1000 / ((reserveOut - minValue) * 997) = m0 :=
    ⟨_, rfl⟩
  have hm0_nn : 0 ≤ m0 := hm0 ▸ Int.ediv_nonneg hNnn hDpos.le
  have hm0_100 : 100 ≤ m0 := hm0 ▸ (Int.le_ediv_iff_mul_le hDpos).mpr hbig
  have hmeq : calculateMinTokenAmount minValue reserveIn reserveOut
      = m0 * 101 / 100 := by
    rw [calculateMinTokenAmount_of_pos hv hr hs, hinner, hm0,
      Int.tdiv_eq_ediv (show (0:Int) ≤ m0 * 101 by nlinarith)
        (show (0:Int) ≤ 100 by norm_num)]
  have hstep : m0 + 1 ≤ m0 * 101 / 100 := by omega
  have hmge : m0 + 1 ≤ calculateMinTokenAmount minValue reserveIn reserveOut := by
    rw [hmeq]; exact hstep
  have hmpos : 0 < calculateMinTokenAmount minValue reserveIn reserveOut :=
    lt_of_lt_of_le (by omega) hmge
  have hN_lt : reserveIn * minValue * 1000
      < (m0 + 1) * ((reserveOut - minValue) * 997) := by
    have h := Int.lt_ediv_add_one_mul_self (reserveIn * minValue * 1000) hDpos
    rwa [hm0] at h
  have hkey : reserveIn * minValue * 1000
      < calculateMinTokenAmount minValue reserveIn reserveOut
          * ((reserveOut - minValue) * 997) :=
    lt_of_lt_of_le hN_lt (mul_le_mul_of_nonneg_right hmge hDpos.le)
  have hden : 0 < reserveIn * 1000
      + calculateMinTokenAmount minValue reserveIn reserveOut * 997 := by
    nlinarith
  rw [calculateBurnValue_of_pos hmpos hr hs,
    Int.tdiv_eq_ediv
      (show (0:Int) ≤ calculateMinTokenAmount minValue reserveIn reserveOut
          * 997 * reserveOut by nlinarith)
      hden.le,
    Int.le_ediv_iff_mul_le hden]
  nlinarith [hkey]

/-- Witness for the amended C3 at `reserveIn = 100`, `reserveOut = 200`,
`minValueOut = 100`. -/
theorem claim3_witness :
    (0 : Int) < 100 ∧ (100 : Int) < 200 ∧
    100 * (((200 : Int) - 100) * 997) ≤ 100 * 100 * 1000 ∧
    (100 : Int) ≤
      calculateBurnValue (calculateMinTokenAmount 100 100 200) 100 200 :=
  ⟨by norm_num, by norm_num, by norm_num,
   claim3_amended_roundtrip 100 200 100 (by norm_num) (by norm_num)
     (by norm_num) (by norm_num)⟩

/-- Claim C5: when the off-chain snapshot is present (`some`), every effective
field equals the parsed decimal-string value of the corresponding off-chain
field (with `0` on a missing or unparsable string, via `parseWeiString`),
ignoring every on-chain input; when it is absent (`none`), every effective
field equals its on-chain value, except that effective `lossAmount` is `0`
whenever `CachedLoss.valid` is `false`, even if `CachedLoss.loss > 0`. -/
theorem claim5_reconciliation_precedence :
    (∀ (o : OffchainStatus) (snap : LossSnapshot) (holding : Int)
        (cached : CachedLoss),
      effectiveCostBasis (some o) snap = parseWeiString o.costBasis ∧
      effectiveSoldValue (some o) snap = parseWeiString o.soldValue ∧
      effectiveHoldingValue (some o) holding = parseWeiString o.currentHoldingValue ∧
      effectiveLossAmount (some o) cached = parseWeiString o.lossAmount) ∧
    (∀ (snap : LossSnapshot) (holding : Int) (cached : CachedLoss),
      effectiveCostBasis none snap = snap.costBasis ∧
      effectiveSoldValue none snap = snap.soldValue ∧
      effectiveHoldingValue none holding = holding ∧
      (cached.valid = true → effectiveLossAmount none cached = cached.loss) ∧
      (cached.valid = false → effectiveLossAmount none cached = 0)) := by
  refine ⟨fun o snap holding cached => ⟨rfl, rfl, rfl, rfl⟩,
    fun snap holding cached => ⟨rfl, rfl, rfl, fun h => ?_, fun h => ?_⟩⟩
  · simp [effectiveLossAmount, h]
  · simp [effectiveLossAmount, h]

/-- Witness for C5: with no snapshot, an invalid cached loss of `5` reconciles
to `0`, while a valid one reconciles to `5`. -/
theorem claim5_witness :
    effectiveLossAmount none { loss := 5, valid := false } = 0 ∧
    effectiveLossAmount none { loss := 5, valid := true } = 5 :=
  ⟨(claim5_reconciliation_precedence.2 ⟨0, 0, 0⟩ 0
      { loss := 5, valid := false }).2.2.2.2 rfl,
   (claim5_reconciliation_precedence.2 ⟨0, 0, 0⟩ 0
      { loss := 5, valid := true }).2.2.2.1 rfl⟩

/-- Claim C10: the off-chain status fetch unconditionally produces `none`
(the `GET /user-status` call is commented out), so the off-chain-authoritative
branch of the reconciler is never taken and every effective field equals its
on-chain-derived value (with the invalid-cache gate for `lossAmount`). -/
theorem claim10_offchain_always_null (prev : Option OffchainStatus)
    (snap : LossSnapshot) (holding : Int) (cached : CachedLoss) :
    fetchOffchainStatusResult prev = none ∧
    effectiveCostBasis (fetchOffchainStatusResult prev) snap = snap.costBasis ∧
    effectiveSoldValue (fetchOffchainStatusResult prev) snap = snap.soldValue ∧
    effectiveHoldingValue (fetchOffchainStatusResult prev) holding = holding ∧
    effectiveLossAmount (fetchOffchainStatusResult prev) cached =
      (if cached.valid then cached.loss else 0) :=
  ⟨rfl, rfl, rfl, rfl, rfl⟩

/-- Claim C6: entering the burn flow re-reads the on-chain allowance; whatever
the cached polling value is, the flow submits the burn when the fresh
allowance covers the requested amount and redirects into the approval flow
when it does not. -/
theorem claim6_fresh_allowance_decides (tok : String)
    (cachedAllowance freshAllowance parsedBurnAmount : Int) :
    (parsedBurnAmount ≤ freshAllowance →
      handleBurnEntry true (some tok) cachedAllowance (some freshAllowance)
        parsedBurnAmount = BurnEntryStep.submitBurn) ∧
    (freshAllowance < parsedBurnAmount →
      handleBurnEntry true (some tok) cachedAllowance (some freshAllowance)
        parsedBurnAmount = BurnEntryStep.redirectToApprove) := by
  constructor
  · intro h
    simp [handleBurnEntry, not_lt.mpr h]
  · intro h
    simp [handleBurnEntry, h]

/-- Witness for C6, the stale-allowance-race scenario: cached allowance
`1e18`, requested burn `2e18`, fresh on-chain read `5e18` — the flow submits
the burn directly. -/
theorem claim6_witness :
    handleBurnEntry true (some "0xtokenaddress") 1000000000000000000
      (some 5000000000000000000) 2000000000000000000 =
      BurnEntryStep.submitBurn :=
  (claim6_fresh_allowance_decides "0xtokenaddress" 1000000000000000000
    5000000000000000000 2000000000000000000).1 (by norm_num)

/-- Claim C7 counterexample: the subscribe handler's guaranteed cleanup clears
only the pending flag; after it completes, `lastAction` is still
`"subscribe"`, so the machine has not returned to the idle state (pending
cleared AND action reset) that the claim requires of all five operations. -/
theorem claim7_counterexample :
    handleSubscribeRun true idleState true ≠ idleState ∧
    (handleSubscribeRun true idleState true).isPending = false ∧
    (handleSubscribeRun true idleState true).lastAction = some "subscribe" := by
  decide

/-- Claim C7 (amended): on every exit path, success or failure, the four claim
handlers, the burn submission, and the approve-then-burn chain all restore the
idle state (pending flag cleared and active action reset); the subscribe
handler clears the pending flag on every exit path but leaves the active
action set to `"subscribe"`. -/
theorem claim7_amended_cleanup :
    (∀ (action : String) (s : TxState) (txOk : Bool),
      claimHandlerRun action true s txOk = idleState) ∧
    (∀ (s : TxState) (txOk : Bool), handleBurnSubmitRun s txOk = idleState) ∧
    (∀ (s : TxState) (approveOk burnOk : Bool),
      handleApproveRun true true s approveOk burnOk = idleState) ∧
    (∀ (s : TxState) (txOk : Bool),
      handleSubscribeRun true s txOk =
        { isPending := false, lastAction := some "subscribe" }) := by
  refine ⟨fun a s t => rfl, fun s t => rfl, fun s aOk bOk => ?_, fun s t => rfl⟩
  cases aOk <;> rfl

/-- Claim C1 counterexample: in the burn flow, the URL-seeded `inviter` text
state is checked first, so with an on-chain bound inviter present the
resolver still returns the text value, contradicting "whenever an on-chain
bound inviter is present it is the resolved inviter regardless of the other
three inputs, in both flows". -/
theorem claim1_counterexample :
    urlRefEffectInviter (some "0x4444444444444444444444444444444444444444") "" =
      "0x4444444444444444444444444444444444444444" ∧
    burnInviterAddr "0x4444444444444444444444444444444444444444"
        (some "0x2222222222222222222222222222222222222222")
        (some "0x3333333333333333333333333333333333333333") =
      "0x4444444444444444444444444444444444444444" ∧
    "0x4444444444444444444444444444444444444444" ≠
      "0x2222222222222222222222222222222222222222" := by
  decide

/-- Claim C1 (amended): the subscription flow resolves in the strict priority
order on-chain bound inviter, manual entry, URL value, root inviter, zero
address; the burn flow has no manual-entry field, and its URL-seeded text
state takes priority over the on-chain bound inviter — its order is text
state (any non-empty `0x`-prefixed value), on-chain bound inviter, root
inviter, zero address. -/
theorem claim1_amended_priority :
    (∀ (onc manual url root : String), onc ≠ "" → onc ≠ zeroAddress →
      subscribeInviterAddr (some onc) manual url root = onc) ∧
    (∀ (onc : Option String) (manual url root : String),
      jsTruthyNonZeroAddr onc = false → manual ≠ "" →
      ethersIsAddress manual = true →
      subscribeInviterAddr onc manual url root = manual) ∧
    (∀ (onc : Option String) (manual url root : String),
      jsTruthyNonZeroAddr onc = false →
      (manual != "" && ethersIsAddress manual) = false → url ≠ "" →
      subscribeInviterAddr onc manual url root = url) ∧
    (∀ (onc : Option String) (manual root : String),
      jsTruthyNonZeroAddr onc = false →
      (manual != "" && ethersIsAddress manual) = false →
      root ≠ "" → ethersIsAddress root = true →
      subscribeInviterAddr onc manual "" root = root) ∧
    (∀ (onc : Option String) (manual root : String),
      jsTruthyNonZeroAddr onc = false →
      (manual != "" && ethersIsAddress manual) = false →
      (root != "" && ethersIsAddress root) = false →
      subscribeInviterAddr onc manual "" root = zeroAddress) ∧
    (∀ (inviter : String) (onc root : Option String),
      inviter ≠ "" → jsStartsWith0x inviter = true →
      burnInviterAddr inviter onc root = inviter) ∧
    (∀ (inviter : String) (onc root : Option String),
      (inviter != "" && jsStartsWith0x inviter) = false →
      jsTruthyNonZeroAddr onc = true →
      burnInviterAddr inviter onc root = onc.getD "") ∧
    (∀ (inviter : String) (onc root : Option String),
      (inviter != "" && jsStartsWith0x inviter) = false →
      jsTruthyNonZeroAddr onc = false → jsTruthyNonZeroAddr root = true →
      burnInviterAddr inviter onc root = root.getD "") ∧
    (∀ (inviter : String) (onc root : Option String),
      (inviter != "" && jsStartsWith0x inviter) = false →
      jsTruthyNonZeroAddr onc = false → jsTruthyNonZeroAddr root = false →
      burnInviterAddr inviter onc root = zeroAddress) := by
  refine ⟨?_, ?_, ?_, ?_, ?_, ?_, ?_, ?_, ?_⟩
  · intro onc manual url root h1 h2
    simp [subscribeInviterAddr, jsTruthyNonZeroAddr, h1, h2]
  · intro onc manual url root h1 h2 h3
    simp [subscribeInviterAddr, h1, h2, h3]
  · intro onc manual url root h1 h2 h3
    simp [subscribeInviterAddr, h1, h2, h3]
  · intro onc manual root h1 h2 h3 h4
    simp [subscribeInviterAddr, h1, h2, h3, h4]
  · intro onc manual root h1 h2 h3
    simp [subscribeInviterAddr, h1, h2, h3]
  · intro inviter onc root h1 h2
    simp [burnInviterAddr, h1, h2]
  · intro inviter onc root h1 h2
    simp [burnInviterAddr, h1, h2]
  · intro inviter onc root h1 h2 h3
    simp [burnInviterAddr, h1, h2, h3]
  · intro inviter onc root h1 h2 h3
    simp [burnInviterAddr, h1, h2, h3]

/-- Witness for the amended C1: with all four candidates populated, the
subscription flow returns the on-chain bound inviter. -/
theorem claim1_witness :
    subscribeInviterAddr (some "0x2222222222222222222222222222222222222222")
      "0x1111111111111111111111111111111111111111"
      "0x4444444444444444444444444444444444444444"
      "0x3333333333333333333333333333333333333333" =
      "0x2222222222222222222222222222222222222222" :=
  claim1_amended_priority.1 "0x2222222222222222222222222222222222222222"
    "0x1111111111111111111111111111111111111111"
    "0x4444444444444444444444444444444444444444"
    "0x3333333333333333333333333333333333333333"
    (by decide) (by decide)

/-- Claim C9 counterexample: `"0xdead"` is not a well-formed address, yet the
URL-parameter effect stores it in the burn flow's inviter state (the effect
only checks the `0x` prefix) and the burn flow resolves it as the inviter,
even with an on-chain bound inviter present. -/
theorem claim9_counterexample :
    ethersIsAddress "0xdead" = false ∧
    urlRefEffectInviter (some "0xdead") "" = "0xdead" ∧
    burnInviterAddr "0xdead"
        (some "0x2222222222222222222222222222222222222222") none =
      "0xdead" := by
  decide

/-- Claim C9 (amended): only the subscription flow validates the URL referral
value as a well-formed address (`inviterFromUrl` discards anything failing
`ethers.isAddress`, silently yielding `""`); the burn flow's URL effect
accepts any non-empty value starting with `0x`, stores it as the inviter text
state, and the burn resolver then uses it as the inviter. -/
theorem claim9_amended_url_validation :
    (∀ r : String, ethersIsAddress r = false → inviterFromUrl (some r) = "") ∧
    (inviterFromUrl none = "") ∧
    (∀ (r prev : String), (r != "" && jsStartsWith0x r) = false →
      urlRefEffectInviter (some r) prev = prev) ∧
    (∀ r : String, r ≠ "" → jsStartsWith0x r = true →
      urlRefEffectInviter (some r) "" = r) ∧
    (∀ (r : String) (onc root : Option String), r ≠ "" →
      jsStartsWith0x r = true →
      burnInviterAddr (urlRefEffectInviter (some r) "") onc root = r) := by
  refine ⟨?_, rfl, ?_, ?_, ?_⟩
  · intro r h
    simp [inviterFromUrl, h]
  · intro r prev h
    simp [urlRefEffectInviter, h]
  · intro r h1 h2
    simp [urlRefEffectInviter, h1, h2]
  · intro r onc root h1 h2
    simp [urlRefEffectInviter, burnInviterAddr, h1, h2]

/-- Witness for the amended C9: the non-address value `"0xabc"` seeded from
the URL is resolved as the burn inviter. -/
theorem claim9_witness :
    burnInviterAddr (urlRefEffectInviter (some "0xabc") "") none none =
      "0xabc" :=
  claim9_amended_url_validation.2.2.2.2 "0xabc" none none (by decide)
    (by decide)
